import Mathlib

/-!
Verification of the HIRED job-board application.

Shallow embedding of:
- the client router guard (src/components/protected-route.jsx),
- the onboarding role-selection handler (src/pages/onboarding.jsx),
- the save/unsave toggle and the other data-access wrappers (src/api/apiJobs.js,
  application API),
- the administrative proxy handlers for job listing and job deletion (server.js).

External calls (Supabase queries, Clerk REST lookups, the Clerk profile update)
are modelled by explicit outcome parameters (`Except` values, lookup functions),
and table state by lists of rows, so every definition is executable.
-/

namespace HIRED

/-! ## Router guard (src/components/protected-route.jsx) -/

/-- Outcome of one evaluation of the `ProtectedRoute` component: render nothing
(session still loading), emit a `Navigate` to a target path, or render the
requested children. -/
inductive GuardResult where
  | renderNothing : GuardResult
  | redirect (target : String) : GuardResult
  | render : GuardResult
deriving DecidableEq, Repr

/-- The `ProtectedRoute` guard, translated clause by clause from
protected-route.jsx.  `role` is `user?.unsafeMetadata?.role`; `none` stands for
a JS-falsy role value (absent metadata), `requiredRole = none` for the prop not
being passed. -/
def protectedRoute (isLoaded isSignedIn : Bool) (role : Option String)
    (pathname : String) (requiredRole : Option String) : GuardResult :=
  if !isLoaded then .renderNothing
  else if !isSignedIn then .redirect "/?sign-in=true"
  else if requiredRole.isSome && (role != requiredRole) then .redirect "/"
  else if (role == some "admin") && (pathname != "/admin") then .redirect "/admin"
  else if (role != some "admin") && (pathname == "/admin") then .redirect "/"
  else if role.isNone && (pathname != "/onboarding") then .redirect "/onboarding"
  else .render

/-- The seven-rule decision table as the specification states it
(first match wins), written with propositional conditions.  Compared against
`protectedRoute` in the refinement theorem for C1. -/
def guardSpec (isLoaded isSignedIn : Bool) (role : Option String)
    (pathname : String) (requiredRole : Option String) : GuardResult :=
  if isLoaded = false then .renderNothing
  else if isSignedIn = false then .redirect "/?sign-in=true"
  else if requiredRole ≠ none ∧ role ≠ requiredRole then .redirect "/"
  else if role = some "admin" ∧ pathname ≠ "/admin" then .redirect "/admin"
  else if role ≠ some "admin" ∧ pathname = "/admin" then .redirect "/"
  else if role = none ∧ pathname ≠ "/onboarding" then .redirect "/onboarding"
  else .render

/-- C1: the guard is a total function of its five inputs; it evaluates exactly
the specification's seven rules in the stated precedence order (first match
wins), and every input yields one of the three outcomes render-nothing,
redirect, or render — there is no error outcome. -/
theorem guard_total_first_match (isLoaded isSignedIn : Bool) (role : Option String)
    (pathname : String) (requiredRole : Option String) :
    protectedRoute isLoaded isSignedIn role pathname requiredRole =
      guardSpec isLoaded isSignedIn role pathname requiredRole ∧
    (protectedRoute isLoaded isSignedIn role pathname requiredRole = .renderNothing ∨
      (∃ t, protectedRoute isLoaded isSignedIn role pathname requiredRole = .redirect t) ∨
      protectedRoute isLoaded isSignedIn role pathname requiredRole = .render) := by
  constructor
  · unfold protectedRoute guardSpec
    cases isLoaded <;> cases isSignedIn <;>
      simp [Option.isSome_iff_ne_none, Option.isNone_iff_eq_none]
  · rcases hg : protectedRoute isLoaded isSignedIn role pathname requiredRole with _ | t | _
    · exact Or.inl rfl
    · exact Or.inr (Or.inl ⟨t, rfl⟩)
    · exact Or.inr (Or.inr rfl)

/-- C2 counterexample: the claim asserts that a loaded, signed-in admin at any
pathname other than "/admin" is redirected to "/admin"; but when the
destination declares a mismatching requiredRole, rule 3 fires first and the
guard redirects to "/" instead. -/
theorem guard_admin_claim_cex :
    protectedRoute true true (some "admin") "/jobs" (some "candidate") =
      .redirect "/" ∧
    protectedRoute true true (some "admin") "/jobs" (some "candidate") ≠
      .redirect "/admin" := by
  constructor
  · rfl
  · decide

/-- C2 (amended): for a loaded, signed-in admin at a pathname other than
"/admin", the guard redirects to "/admin" whenever the destination declares no
requiredRole or declares requiredRole "admin", and in every case (any
requiredRole) it never renders the requested page; and for every loaded,
signed-in non-admin principal, the guard at pathname "/admin" redirects
to "/". -/
theorem guard_admin_containment (pathname : String) (requiredRole : Option String) :
    (pathname ≠ "/admin" →
      ((requiredRole = none ∨ requiredRole = some "admin") →
        protectedRoute true true (some "admin") pathname requiredRole =
          .redirect "/admin") ∧
      protectedRoute true true (some "admin") pathname requiredRole ≠ .render) ∧
    (∀ role : Option String, role ≠ some "admin" →
      protectedRoute true true role "/admin" requiredRole = .redirect "/") := by
  constructor
  · intro hpath
    constructor
    · rintro (rfl | rfl) <;> simp [protectedRoute, hpath]
    · rcases hr : requiredRole with _ | r
      · simp [protectedRoute, hpath]
      · by_cases hmatch : (some "admin" : Option String) = some r <;>
          simp [protectedRoute, hpath, hmatch]
  · intro role hrole
    rcases hr : requiredRole with _ | r
    · simp [protectedRoute, hrole]
    · by_cases hmatch : role = some r
      · have hne : r ≠ "admin" := fun h => hrole (by rw [hmatch, h])
        simp [protectedRoute, hrole, hmatch, hne]
      · simp [protectedRoute, hrole, hmatch]

/-- C2 witness: the amended containment theorem instantiated at concrete
inputs — an admin at "/jobs" with no requiredRole is sent to "/admin", and a
role-less principal at "/admin" is sent to "/". -/
theorem guard_admin_containment_witness :
    protectedRoute true true (some "admin") "/jobs" none = .redirect "/admin" ∧
    protectedRoute true true none "/admin" none = .redirect "/" :=
  ⟨((guard_admin_containment "/jobs" none).1 (by decide)).1 (Or.inl rfl),
   (guard_admin_containment "/jobs" none).2 none (by decide)⟩

/-- C3 counterexample: the claim asserts that a loaded, signed-in principal
with unset role is redirected to "/onboarding" from any destination other than
"/onboarding"; but at "/admin" rule 5 fires first and the guard redirects
to "/" instead. -/
theorem guard_unset_claim_cex :
    protectedRoute true true none "/admin" none = .redirect "/" ∧
    protectedRoute true true none "/admin" none ≠ .redirect "/onboarding" := by
  constructor
  · rfl
  · decide

/-- C3 (amended): a loaded, signed-in principal with unset role navigating to
any destination other than "/onboarding" and "/admin" that declares no
requiredRole is redirected to "/onboarding" (at "/admin", or at a destination
declaring a requiredRole, the guard redirects to "/" instead); and once the
role is set to any non-admin value, repeating a navigation to a destination
other than "/admin" whose requiredRole is absent or matching renders the
requested destination with no redirect. -/
theorem guard_unset_onboarding (pathname : String) (requiredRole : Option String) :
    (pathname ≠ "/onboarding" → pathname ≠ "/admin" →
      protectedRoute true true none pathname none = .redirect "/onboarding") ∧
    (protectedRoute true true none "/admin" requiredRole = .redirect "/") ∧
    (∀ rr, protectedRoute true true none pathname (some rr) = .redirect "/") ∧
    (∀ r, some r ≠ (some "admin" : Option String) → pathname ≠ "/admin" →
      (requiredRole = none ∨ requiredRole = some r) →
      protectedRoute true true (some r) pathname requiredRole = .render) := by
  refine ⟨?_, ?_, ?_, ?_⟩
  · intro h1 h2
    simp [protectedRoute, h1, h2]
  · rcases hr : requiredRole with _ | r
    · simp [protectedRoute]
    · simp [protectedRoute]
  · intro rr
    simp [protectedRoute]
  · intro r hr hpath hreq
    rcases hreq with rfl | rfl <;> simp_all [protectedRoute]

/-- C3 witness: the amended theorem instantiated at concrete inputs — a
role-less principal at "/jobs" is sent to "/onboarding", and after the role is
set to "candidate" the same navigation renders. -/
theorem guard_unset_onboarding_witness :
    protectedRoute true true none "/jobs" none = .redirect "/onboarding" ∧
    protectedRoute true true (some "candidate") "/jobs" none = .render :=
  ⟨(guard_unset_onboarding "/jobs" none).1 (by decide) (by decide),
   (guard_unset_onboarding "/jobs" none).2.2.2 "candidate" (by decide) (by decide)
     (Or.inl rfl)⟩

/-! ## Onboarding role selection (src/pages/onboarding.jsx) -/

/-- `navigateUser` from onboarding.jsx: the landing destination for a chosen
role. -/
def navigateUser (currRole : String) : String :=
  if currRole = "recruiter" then "/post-job" else "/jobs"

/-- The observable state touched by the onboarding handler: the role attribute
of the principal's Clerk profile (`user.unsafeMetadata.role`), the destination
passed to `navigate` (if any), and a count of errors written to the console. -/
structure OnbState where
  role : Option String
  navigatedTo : Option String
  loggedErrors : Nat
deriving DecidableEq, Repr

/-- `handleRoleSelection` from onboarding.jsx.  `updateSucceeds` is the outcome
of the external `user.update({ unsafeMetadata: { role } })` call: on success
the profile role is overwritten and the browser navigates via `navigateUser`;
on failure the error is logged and nothing else happens. -/
def handleRoleSelection (updateSucceeds : Bool) (role : String) (s : OnbState) :
    OnbState :=
  if updateSucceeds then
    { role := some role,
      navigatedTo := some (navigateUser role),
      loggedErrors := s.loggedErrors }
  else
    { s with loggedErrors := s.loggedErrors + 1 }

/-- C4: for every chosen role value, the handler persists that role onto the
profile via the update call; on success it navigates to "/post-job" when the
role is "recruiter" and to "/jobs" for any other value; on failure it logs the
error, performs no navigation, and leaves the profile unchanged (the principal
stays on the assignment screen). -/
theorem role_selection_contract (role : String) (s : OnbState) :
    handleRoleSelection true role s =
      { role := some role,
        navigatedTo := some (if role = "recruiter" then "/post-job" else "/jobs"),
        loggedErrors := s.loggedErrors } ∧
    handleRoleSelection false role s =
      { role := s.role,
        navigatedTo := s.navigatedTo,
        loggedErrors := s.loggedErrors + 1 } := by
  constructor
  · simp [handleRoleSelection, navigateUser]
  · simp [handleRoleSelection]

/-- C8: role assignment is idempotent under overwrite semantics — invoking the
handler a second time with "recruiter" leaves the state exactly where the
first successful invocation put it, and both invocations navigate to
"/post-job". -/
theorem role_selection_idempotent (s : OnbState) :
    handleRoleSelection true "recruiter" (handleRoleSelection true "recruiter" s) =
      handleRoleSelection true "recruiter" s ∧
    (handleRoleSelection true "recruiter" s).role = some "recruiter" ∧
    (handleRoleSelection true "recruiter" s).navigatedTo = some "/post-job" ∧
    (handleRoleSelection true "recruiter"
        (handleRoleSelection true "recruiter" s)).navigatedTo =
      some "/post-job" := by
  refine ⟨?_, ?_, ?_, ?_⟩ <;> simp [handleRoleSelection, navigateUser]

/-! ## Save/unsave toggle (src/api/apiJobs.js, saveJob) -/

/-- The row filter used by the toggle: a saved_jobs row matches when both its
user_id and job_id equal the given pair. -/
def savedMatches (u j : String) (r : String × String) : Bool :=
  r.1 == u && r.2 == j

/-- `saveJob` from apiJobs.js on its non-throwing path, over the saved_jobs
table modelled as a list of (user_id, job_id) rows.  It first selects the rows
matching the pair; if any exist it deletes them all and returns `[]` (the
"unsaved" report); otherwise it inserts one row and returns the inserted data
(the "saved" report).  Result: (new table, returned data). -/
def saveJob (db : List (String × String)) (u j : String) :
    List (String × String) × List (String × String) :=
  let existingSaves := db.filter (savedMatches u j)
  if existingSaves.length > 0 then
    (db.filter fun r => !(savedMatches u j r), [])
  else
    (db ++ [(u, j)], [(u, j)])

/-- A (user, job) pair counts as saved exactly when the toggle's existence
check would find a matching row. -/
def isSaved (db : List (String × String)) (u j : String) : Prop :=
  (db.filter (savedMatches u j)).length > 0

instance (db : List (String × String)) (u j : String) :
    Decidable (isSaved db u j) :=
  Nat.decLt _ _

/-- Filtering by a predicate after keeping only its complement yields nothing. -/
theorem filter_not_filter {α : Type} (p : α → Bool) (l : List α) :
    (l.filter fun x => !(p x)).filter p = [] := by
  induction l with
  | nil => rfl
  | cons a t ih =>
    by_cases h : p a <;> simp [List.filter_cons, h, ih]

/-- The pair itself always passes its own match filter. -/
theorem savedMatches_self (u j : String) : savedMatches u j (u, j) = true := by
  simp [savedMatches]

/-- C5: the toggle checks for an existing save record — deleting and reporting
"unsaved" (empty returned data) when one exists, inserting and reporting
"saved" when none does — and applying it twice in sequence for the same
(user, job) pair returns the saved/unsaved state to the original: the toggle
is its own inverse. -/
theorem save_toggle_involutive (db : List (String × String)) (u j : String) :
    saveJob db u j =
      (if isSaved db u j then
        (db.filter fun r => !(savedMatches u j r), ([] : List (String × String)))
       else (db ++ [(u, j)], [(u, j)])) ∧
    (isSaved (saveJob (saveJob db u j).1 u j).1 u j ↔ isSaved db u j) := by
  constructor
  · rfl
  · by_cases h : isSaved db u j
    · have h1 : (saveJob db u j).1 = db.filter fun r => !(savedMatches u j r) := by
        simp [saveJob, isSaved] at h ⊢
        simp [if_pos h]
      have h2 : ¬ isSaved (saveJob db u j).1 u j := by
        rw [h1]
        simp [isSaved, filter_not_filter]
      have h3 : (saveJob (saveJob db u j).1 u j).1 =
          (saveJob db u j).1 ++ [(u, j)] := by
        simp only [saveJob, isSaved] at h2 ⊢
        simp [if_neg h2]
      rw [h3]
      have h4 : isSaved ((saveJob db u j).1 ++ [(u, j)]) u j := by
        simp [isSaved, List.filter_append, savedMatches_self]
      exact iff_of_true h4 h
    · have h1 : (saveJob db u j).1 = db ++ [(u, j)] := by
        simp only [saveJob, isSaved] at h ⊢
        simp [if_neg h]
      have h2 : isSaved (saveJob db u j).1 u j := by
        rw [h1]
        simp [isSaved, List.filter_append, savedMatches_self]
      have h3 : (saveJob (saveJob db u j).1 u j).1 =
          (saveJob db u j).1.filter fun r => !(savedMatches u j r) := by
        simp only [saveJob, isSaved] at h2 ⊢
        simp [if_pos h2]
      rw [h3]
      have h4 : ¬ isSaved ((saveJob db u j).1.filter fun r => !(savedMatches u j r)) u j := by
        simp [isSaved, filter_not_filter]
      exact iff_of_false h4 h

/-! ## Administrative proxy server (server.js) -/

/-- A row of the jobs table: its id, the recruiter_id used for Clerk
enrichment, and the remaining column values as an opaque association list. -/
structure Job where
  id : String
  recruiter_id : String
  fields : List (String × String)
deriving DecidableEq, Repr

/-- The `.select("*").eq("id", jobId).single()` existence check: PostgREST's
`.single()` succeeds exactly when one row matches, and errors otherwise. -/
def fetchSingle (db : List Job) (jobId : String) : Except Unit Job :=
  match db.filter (fun x => x.id == jobId) with
  | [j] => Except.ok j
  | _ => Except.error ()

/-- Responses of the DELETE /api/delete-job/:jobId handler, one constructor per
distinct response the code can send. -/
inductive DeleteJobResp where
  | notFound : DeleteJobResp
  | deleteFailed : DeleteJobResp
  | zeroRows : DeleteJobResp
  | success (deletedJob : Job) (rowsAffected : Nat) : DeleteJobResp
deriving DecidableEq, Repr

/-- HTTP status code of each delete-job response. -/
def DeleteJobResp.statusCode : DeleteJobResp → Nat
  | .notFound => 404
  | .deleteFailed => 500
  | .zeroRows => 500
  | .success _ _ => 200

/-- Steps 2-4 of the delete-job handler, over the outcome of the delete call
(`.delete().eq("id", jobId).select()` returns the deleted rows): a database
error maps to 500 "Failed to delete job", zero returned rows to 500 "no rows
affected", and otherwise to 200 with data[0] as deletedJob and data.length as
rowsAffected. -/
def deleteJobFinish (deleteRes : Except Unit (List Job)) : DeleteJobResp :=
  match deleteRes with
  | .error _ => .deleteFailed
  | .ok [] => .zeroRows
  | .ok (d :: rest) => .success d (rest.length + 1)

/-- The DELETE /api/delete-job/:jobId handler over a jobs-table state: step 1
checks existence with `.single()` and answers 404 without touching the table
when it fails; otherwise the delete removes the matching rows and the response
is built by `deleteJobFinish` from the deleted rows.  Result: (response, table
after the request). -/
def deleteJobHandler (db : List Job) (jobId : String) : DeleteJobResp × List Job :=
  match fetchSingle db jobId with
  | .error _ => (.notFound, db)
  | .ok _ =>
    (deleteJobFinish (Except.ok (db.filter fun x => x.id == jobId)),
     db.filter fun x => !(x.id == jobId))

/-- C6: deleting a nonexistent job id answers 404 and leaves the jobs table
untouched; deleting an existing id (exactly one matching row) answers 200 with
rowsAffected = 1 and the deleted row's prior field values as deletedJob; and a
delete that passes the existence check but affects zero rows answers 500,
a response distinct from the 404 not-found one. -/
theorem delete_job_endpoint_contract (db : List Job) (jobId : String) :
    (db.filter (fun x => x.id == jobId) = [] →
      deleteJobHandler db jobId = (.notFound, db) ∧
      DeleteJobResp.statusCode .notFound = 404) ∧
    (∀ job, db.filter (fun x => x.id == jobId) = [job] →
      deleteJobHandler db jobId =
        (.success job 1, db.filter fun x => !(x.id == jobId)) ∧
      DeleteJobResp.statusCode (.success job 1) = 200) ∧
    (∀ job, fetchSingle db jobId = Except.ok job →
      deleteJobFinish (Except.ok []) = .zeroRows ∧
      DeleteJobResp.statusCode .zeroRows = 500 ∧
      DeleteJobResp.zeroRows ≠ DeleteJobResp.notFound) := by
  refine ⟨?_, ?_, ?_⟩
  · intro hempty
    constructor
    · simp [deleteJobHandler, fetchSingle, hempty]
    · rfl
  · intro job hone
    constructor
    · simp [deleteJobHandler, fetchSingle, hone, deleteJobFinish]
    · rfl
  · intro job _
    exact ⟨rfl, rfl, by decide⟩

/-- C6 witness: the contract instantiated on a concrete one-row table — the
absent id "j2" gives 404 with the table unchanged, the present id "j1" gives
200 with rowsAffected 1, and the zero-rows delete outcome gives the 500
response. -/
theorem delete_job_endpoint_contract_witness :
    deleteJobHandler [{ id := "j1", recruiter_id := "u1", fields := [] }] "j2" =
      (.notFound, [{ id := "j1", recruiter_id := "u1", fields := [] }]) ∧
    deleteJobHandler [{ id := "j1", recruiter_id := "u1", fields := [] }] "j1" =
      (.success { id := "j1", recruiter_id := "u1", fields := [] } 1, []) ∧
    deleteJobFinish (Except.ok []) = .zeroRows :=
  ⟨((delete_job_endpoint_contract
      [{ id := "j1", recruiter_id := "u1", fields := [] }] "j2").1 (by decide)).1,
   ((delete_job_endpoint_contract
      [{ id := "j1", recruiter_id := "u1", fields := [] }] "j1").2.1
      { id := "j1", recruiter_id := "u1", fields := [] } (by decide)).1,
   ((delete_job_endpoint_contract
      [{ id := "j1", recruiter_id := "u1", fields := [] }] "j1").2.2
      { id := "j1", recruiter_id := "u1", fields := [] } rfl).1⟩

/-- The fields of a Clerk user that the get-jobs enrichment reads; `none`
stands for a missing or JS-falsy value. -/
structure ClerkUser where
  emailAddress : Option String
  firstName : Option String
deriving DecidableEq, Repr

/-- Outcome of one Clerk identity lookup for a recruiter id: an ok response
with a user body, or a failure (non-ok response or rejected promise — the code
treats both identically). -/
inductive LookupResult where
  | found (u : ClerkUser) : LookupResult
  | failed : LookupResult
deriving DecidableEq, Repr

/-- One element of the get-jobs response: the spread `{ ...job, ... }` carries
every field of the original row (`base`) and adds exactly recruiter_email,
recruiter_name, and companies. -/
structure EnrichedJob where
  base : Job
  recruiter_email : String
  recruiter_name : String
  companies_name : String
deriving DecidableEq, Repr

/-- The per-job enrichment step of GET /api/get-jobs: on an ok lookup the email
and first name are taken from the Clerk body with "N/A" fallbacks, on a failed
lookup both fields are "N/A"; companies is always the placeholder
{ name: "N/A" }. -/
def enrichJob (lookup : String → LookupResult) (job : Job) : EnrichedJob :=
  match lookup job.recruiter_id with
  | .found r =>
    { base := job,
      recruiter_email := r.emailAddress.getD "N/A",
      recruiter_name := r.firstName.getD "N/A",
      companies_name := "N/A" }
  | .failed =>
    { base := job,
      recruiter_email := "N/A",
      recruiter_name := "N/A",
      companies_name := "N/A" }

/-- Responses of the GET /api/get-jobs handler. -/
inductive JobsResp where
  | serverError : JobsResp
  | ok (body : List EnrichedJob) : JobsResp
deriving DecidableEq, Repr

/-- The GET /api/get-jobs handler over the outcome of the jobs query and the
Clerk lookup behaviour: a query error answers 500; an empty table answers 200
with []; otherwise every fetched row is enriched (Promise.all keeps the order)
and the handler answers 200 with the enriched array. -/
def getJobsHandler (fetchRes : Except Unit (List Job))
    (lookup : String → LookupResult) : JobsResp :=
  match fetchRes with
  | .error _ => .serverError
  | .ok jobs =>
    if jobs.isEmpty then .ok []
    else .ok (jobs.map (enrichJob lookup))

/-- C7: the handler answers 200 with [] on an empty jobs table; a job row whose
recruiter lookup fails is still present in the 200 response with
recruiter_email and recruiter_name both the literal "N/A"; and for any fetched
table and any lookup behaviour the response is never the 500 error — a per-row
lookup failure is never propagated as an endpoint failure. -/
theorem get_jobs_fallback_contract (jobs : List Job)
    (lookup : String → LookupResult) (job : Job) :
    getJobsHandler (Except.ok []) lookup = .ok [] ∧
    (job ∈ jobs → lookup job.recruiter_id = .failed →
      ∃ body, getJobsHandler (Except.ok jobs) lookup = .ok body ∧
        enrichJob lookup job ∈ body ∧
        (enrichJob lookup job).base = job ∧
        (enrichJob lookup job).recruiter_email = "N/A" ∧
        (enrichJob lookup job).recruiter_name = "N/A") ∧
    getJobsHandler (Except.ok jobs) lookup ≠ .serverError := by
  refine ⟨rfl, ?_, ?_⟩
  · intro hmem hfail
    have hne : jobs ≠ [] := by
      intro h
      rw [h] at hmem
      exact absurd hmem (List.not_mem_nil job)
    refine ⟨jobs.map (enrichJob lookup), ?_, ?_, ?_, ?_, ?_⟩
    · simp [getJobsHandler, List.isEmpty_iff, hne]
    · exact List.mem_map_of_mem (enrichJob lookup) hmem
    · simp [enrichJob, hfail]
    · simp [enrichJob, hfail]
    · simp [enrichJob, hfail]
  · cases jobs with
    | nil => simp [getJobsHandler]
    | cons a t => simp [getJobsHandler]

/-- C7 witness: the contract instantiated on a one-row table whose recruiter
lookup always fails — the endpoint still answers 200 and the row carries the
"N/A" fallbacks. -/
theorem get_jobs_fallback_contract_witness :
    getJobsHandler (Except.ok [{ id := "j1", recruiter_id := "u1", fields := [] }])
        (fun _ => .failed) =
      .ok [{ base := { id := "j1", recruiter_id := "u1", fields := [] },
             recruiter_email := "N/A", recruiter_name := "N/A",
             companies_name := "N/A" }] := by
  have h := (get_jobs_fallback_contract
    [{ id := "j1", recruiter_id := "u1", fields := [] }]
    (fun _ => .failed) { id := "j1", recruiter_id := "u1", fields := [] }).2.1
    (List.mem_singleton.mpr rfl) rfl
  rcases h with ⟨body, hbody, hmem, _, _, _⟩
  rw [hbody]
  rcases hbody' : body with _ | ⟨e, rest⟩
  · rw [hbody'] at hmem
    exact absurd hmem (List.not_mem_nil _)
  · rw [hbody'] at hbody
    have : getJobsHandler
        (Except.ok [{ id := "j1", recruiter_id := "u1", fields := [] }])
        (fun _ => .failed) =
        .ok [{ base := { id := "j1", recruiter_id := "u1", fields := [] },
               recruiter_email := "N/A", recruiter_name := "N/A",
               companies_name := "N/A" }] := rfl
    rw [this] at hbody
    rw [← hbody]

/-- C10: the enrichment step is a frame-preserving map — for every non-empty
fetched jobs list the 200 response body has exactly one element per fetched
row, in the same order, each element carrying the original row unchanged in
its job fields and only the three enrichment fields added, with companies
always the placeholder { name: "N/A" }. -/
theorem get_jobs_frame_preserving (jobs : List Job)
    (lookup : String → LookupResult) (hne : jobs ≠ []) :
    getJobsHandler (Except.ok jobs) lookup = .ok (jobs.map (enrichJob lookup)) ∧
    (jobs.map (enrichJob lookup)).length = jobs.length ∧
    (jobs.map (enrichJob lookup)).map EnrichedJob.base = jobs ∧
    ∀ e ∈ jobs.map (enrichJob lookup), e.companies_name = "N/A" := by
  have hbase : ∀ job : Job, (enrichJob lookup job).base = job := by
    intro job
    cases hl : lookup job.recruiter_id <;> simp [enrichJob, hl]
  refine ⟨?_, ?_, ?_, ?_⟩
  · simp [getJobsHandler, List.isEmpty_iff, hne]
  · exact List.length_map jobs (enrichJob lookup)
  · rw [List.map_map]
    calc jobs.map (EnrichedJob.base ∘ enrichJob lookup)
        = jobs.map id := List.map_congr_left fun job _ => hbase job
      _ = jobs := List.map_id jobs
  · intro e he
    rcases List.mem_map.mp he with ⟨job, _, rfl⟩
    cases hl : lookup job.recruiter_id <;> simp [enrichJob, hl]

/-- C10 witness: the frame-preservation theorem instantiated on a concrete
two-row table with a lookup that succeeds for one recruiter and fails for the
other. -/
theorem get_jobs_frame_preserving_witness :
    getJobsHandler
      (Except.ok [{ id := "j1", recruiter_id := "u1", fields := [("title", "a")] },
                  { id := "j2", recruiter_id := "u2", fields := [] }])
      (fun rid => if rid = "u1"
        then .found { emailAddress := some "r@x.io", firstName := some "Rae" }
        else .failed) =
    .ok [{ base := { id := "j1", recruiter_id := "u1", fields := [("title", "a")] },
           recruiter_email := "r@x.io", recruiter_name := "Rae",
           companies_name := "N/A" },
         { base := { id := "j2", recruiter_id := "u2", fields := [] },
           recruiter_email := "N/A", recruiter_name := "N/A",
           companies_name := "N/A" }] := by
  have h := (get_jobs_frame_preserving
    [{ id := "j1", recruiter_id := "u1", fields := [("title", "a")] },
     { id := "j2", recruiter_id := "u2", fields := [] }]
    (fun rid => if rid = "u1"
      then .found { emailAddress := some "r@x.io", firstName := some "Rae" }
      else .failed) (by decide)).1
  rw [h]
  rfl

/-! ## Failure conventions of the data-access wrappers
(src/api/apiJobs.js and the application API) -/

/-- How a client data-access wrapper call ends, as seen by its caller: an
exception propagated out (`thrown`), the JS value `null` returned, or a data
value returned. -/
inductive WRes (α : Type) where
  | thrown (msg : String) : WRes α
  | null : WRes α
  | value (v : α) : WRes α
deriving DecidableEq, Repr

/-- `getJobs` error handling: on a query error it logs and returns null,
otherwise it returns the data. -/
def getJobsW {α : Type} (queryRes : Except String α) : WRes α :=
  match queryRes with
  | .error _ => .null
  | .ok d => .value d

/-- `getSavedJobs` error handling: log and return null on error. -/
def getSavedJobsW {α : Type} (queryRes : Except String α) : WRes α :=
  match queryRes with
  | .error _ => .null
  | .ok d => .value d

/-- `getSingleJob` error handling: log and return null on error. -/
def getSingleJobW {α : Type} (queryRes : Except String α) : WRes α :=
  match queryRes with
  | .error _ => .null
  | .ok d => .value d

/-- `updateHiringStatus` error handling: log and return null on error. -/
def updateHiringStatusW {α : Type} (queryRes : Except String α) : WRes α :=
  match queryRes with
  | .error _ => .null
  | .ok d => .value d

/-- `getMyJobs` error handling: log and return null on error. -/
def getMyJobsW {α : Type} (queryRes : Except String α) : WRes α :=
  match queryRes with
  | .error _ => .null
  | .ok d => .value d

/-- `getApplications` (application API) error handling: log and return null on
error. -/
def getApplicationsW {α : Type} (queryRes : Except String α) : WRes α :=
  match queryRes with
  | .error _ => .null
  | .ok d => .value d

/-- `updateApplicationStatus` (application API): returns null when the update
errors or when it affected no rows, otherwise the data. -/
def updateApplicationStatusW {α : Type} (queryRes : Except String (List α)) :
    WRes (List α) :=
  match queryRes with
  | .error _ => .null
  | .ok data => if data.length = 0 then .null else .value data

/-- `addNewJob`: throws "Error Creating Job" on an insert error. -/
def addNewJobW {α : Type} (insertRes : Except String α) : WRes α :=
  match insertRes with
  | .error _ => .thrown "Error Creating Job"
  | .ok d => .value d

/-- `applyToJob` (application API): throws "Error uploading Resume" on a
storage error, then "Error submitting Application" on an insert error. -/
def applyToJobW {α : Type} (storageRes : Except String Unit)
    (insertRes : Except String α) : WRes α :=
  match storageRes with
  | .error _ => .thrown "Error uploading Resume"
  | .ok _ =>
    match insertRes with
    | .error _ => .thrown "Error submitting Application"
    | .ok d => .value d

/-- `saveJob` seen through its three external calls: the existence check, the
delete, and the insert.  Every error is re-thrown; on success the wrapper
returns `[]` (existing save removed) or the inserted data. -/
def saveJobW {α β : Type} (checkRes : Except String (List α))
    (deleteRes : Except String Unit) (insertRes : Except String (List β)) :
    WRes (List β) :=
  match checkRes with
  | .error e => .thrown e
  | .ok existing =>
    if existing.length > 0 then
      match deleteRes with
      | .error e => .thrown e
      | .ok _ => .value []
    else
      match insertRes with
      | .error e => .thrown e
      | .ok d => .value d

/-- The client-side `deleteJob` wrapper in apiJobs.js: throws on a failed
existence check, a failed delete, and a delete returning zero rows. -/
def deleteJobW {α β : Type} (fetchRes : Except String α)
    (deleteRes : Except String (List β)) : WRes (List β) :=
  match fetchRes with
  | .error m => .thrown ("Job not found: " ++ m)
  | .ok _ =>
    match deleteRes with
    | .error m => .thrown ("Failed to delete job: " ++ m)
    | .ok data =>
      if data.length = 0 then .thrown "Job was not deleted - check permissions"
      else .value data

/-- C9 counterexample: evaluating every data-access wrapper on every one of
its error paths at concrete inputs, each outcome is a returned null or a
thrown exception — no wrapper signals an error by returning an empty
collection, so the third convention the claim requires does not exist (the
only `[]` saveJob returns is its success report for "unsaved"). -/
theorem wrapper_conventions_cex :
    getJobsW (α := List Nat) (Except.error "db") = .null ∧
    getSavedJobsW (α := List Nat) (Except.error "db") = .null ∧
    getSingleJobW (α := Nat) (Except.error "db") = .null ∧
    updateHiringStatusW (α := List Nat) (Except.error "db") = .null ∧
    getMyJobsW (α := List Nat) (Except.error "db") = .null ∧
    getApplicationsW (α := List Nat) (Except.error "db") = .null ∧
    updateApplicationStatusW (α := Nat) (Except.error "db") = .null ∧
    addNewJobW (α := List Nat) (Except.error "db") = .thrown "Error Creating Job" ∧
    applyToJobW (α := List Nat) (Except.error "storage") (Except.ok [1]) =
      .thrown "Error uploading Resume" ∧
    applyToJobW (α := List Nat) (Except.ok ()) (Except.error "db") =
      .thrown "Error submitting Application" ∧
    saveJobW (α := Nat) (β := Nat) (Except.error "db") (Except.ok ()) (Except.ok [1]) =
      .thrown "db" ∧
    saveJobW (α := Nat) (β := Nat) (Except.ok [7]) (Except.error "db") (Except.ok [1]) =
      .thrown "db" ∧
    saveJobW (α := Nat) (β := Nat) (Except.ok []) (Except.ok ()) (Except.error "db") =
      .thrown "db" ∧
    deleteJobW (α := Nat) (β := Nat) (Except.error "nf") (Except.ok [1]) =
      .thrown ("Job not found: " ++ "nf") ∧
    deleteJobW (α := Nat) (β := Nat) (Except.ok 1) (Except.error "de") =
      .thrown ("Failed to delete job: " ++ "de") ∧
    deleteJobW (α := Nat) (β := Nat) (Except.ok 1) (Except.ok []) =
      .thrown "Job was not deleted - check permissions" ∧
    (WRes.null : WRes (List Nat)) ≠ .value [] ∧
    (WRes.thrown "db" : WRes (List Nat)) ≠ .value [] := by
  refine ⟨rfl, rfl, rfl, rfl, rfl, rfl, rfl, rfl, rfl, rfl, rfl, rfl, rfl,
    rfl, rfl, rfl, ?_, ?_⟩ <;> decide

/-- C9 (amended): the wrappers use exactly two failure conventions — some
signal a database error by returning null (getJobs and the other read/update
wrappers), some by throwing (saveJob, deleteJob, addNewJob, applyToJob) — and
on no error path does any wrapper return an empty collection; saveJob's `[]`
is a success value meaning "unsaved".  Callers must therefore check for null
and catch exceptions, but not for an error-signalling empty collection. -/
theorem wrapper_conventions (e : String) (dRes : Except String Unit)
    (iRes : Except String (List Nat)) :
    getJobsW (α := List Nat) (Except.error e) = .null ∧
    getSavedJobsW (α := List Nat) (Except.error e) = .null ∧
    getSingleJobW (α := Nat) (Except.error e) = .null ∧
    updateHiringStatusW (α := List Nat) (Except.error e) = .null ∧
    getMyJobsW (α := List Nat) (Except.error e) = .null ∧
    getApplicationsW (α := List Nat) (Except.error e) = .null ∧
    updateApplicationStatusW (α := Nat) (Except.error e) = .null ∧
    addNewJobW (α := List Nat) (Except.error e) = .thrown "Error Creating Job" ∧
    applyToJobW (α := List Nat) (Except.error e) iRes =
      .thrown "Error uploading Resume" ∧
    applyToJobW (α := List Nat) (Except.ok ()) (Except.error e) =
      .thrown "Error submitting Application" ∧
    saveJobW (α := Nat) (β := Nat) (Except.error e) dRes iRes = .thrown e ∧
    saveJobW (α := Nat) (β := Nat) (Except.ok [7]) (Except.error e) iRes =
      .thrown e ∧
    saveJobW (α := Nat) (β := Nat) (Except.ok []) dRes (Except.error e) =
      .thrown e ∧
    deleteJobW (α := Nat) (β := Nat) (Except.error e) iRes =
      .thrown ("Job not found: " ++ e) ∧
    deleteJobW (α := Nat) (β := Nat) (Except.ok 1) (Except.error e) =
      .thrown ("Failed to delete job: " ++ e) ∧
    deleteJobW (α := Nat) (β := Nat) (Except.ok 1) (Except.ok []) =
      .thrown "Job was not deleted - check permissions" ∧
    (∀ v : List Nat, (WRes.null : WRes (List Nat)) ≠ .value v) ∧
    (∀ m : String, ∀ v : List Nat, (WRes.thrown m : WRes (List Nat)) ≠ .value v) := by
  refine ⟨rfl, rfl, rfl, rfl, rfl, rfl, rfl, rfl, rfl, rfl, rfl, rfl, rfl,
    rfl, rfl, rfl, ?_, ?_⟩
  · intro v h
    exact WRes.noConfusion h
  · intro m v h
    exact WRes.noConfusion h

end HIRED
